import Mathlib

/-!
Verification of the sqlite_conversion repository: a shallow embedding of the
two batch jobs (src/xl_to_sqlite.py, the import pipeline, and
src/compress_sqlite.py, the post-process pipeline) together with theorems
settling the specification claims.

Strings are modelled as Lean `String`/`List Char`; the SQLite tables are
modelled as lists of record rows in insertion order, with the rowid of a
freshly inserted row modelled as current row count + 1 (SQLite assigns
max rowid + 1, and neither job ever deletes a row, so the two coincide).
Spreadsheet cells are modelled as `Option String`: `none` stands for a
missing cell (pandas NaN), `some s` for a cell whose Python str() form is s.
File reading, decryption and gzip compression are external collaborators and
are not modelled.
-/

namespace SqliteConversion

/-- The ASCII whitespace characters recognised by the Python str.strip()
method and by the regex class backslash-s (space, tab, newline, carriage
return, vertical tab, form feed).  Unicode whitespace, which Python also
accepts, is not exercised by any claim and is not modelled. -/
def pyIsSpace (c : Char) : Bool :=
  c == ' ' || c == '\t' || c == '\n' || c == '\r' ||
  c == '\x0b' || c == '\x0c'

/-- Python str.strip(): drop leading and trailing whitespace. -/
def pyStrip (l : List Char) : List Char :=
  ((l.dropWhile pyIsSpace).reverse.dropWhile pyIsSpace).reverse

/-- Python str.strip() on a Lean string. -/
def pyStripStr (s : String) : String :=
  String.mk (pyStrip s.data)

/-!
## format_display_string (src/xl_to_sqlite.py lines 153-158)

The source applies `re.sub(r' *(\r\n|\n|  )', ' ', str(text))` and then
strips the result.  `re.sub` scans left to right replacing non-overlapping
matches.  At a scan position carrying a (possibly empty) run of spaces:
  * spaces followed by a CR LF pair: the greedy star takes all the spaces and
    the group takes the CR LF; the whole match becomes one space;
  * spaces followed by a lone LF: same, the whole match becomes one space;
  * a run of two or more spaces followed by anything else: the star
    backtracks by two and the group takes two spaces, so the run is consumed
    whole and becomes one space;
  * a single space followed by anything else: no match, the space is copied.
`subAux` implements exactly this scan; the flag records whether the scanner
is inside a space run whose single output space has already been emitted.
-/
def subAux : Bool → List Char → List Char
  | _, [] => []
  | inRun, '\r' :: '\n' :: rest =>
    if inRun then subAux false rest else ' ' :: subAux false rest
  | inRun, '\n' :: rest =>
    if inRun then subAux false rest else ' ' :: subAux false rest
  | inRun, ' ' :: rest =>
    if inRun then subAux true rest else ' ' :: subAux true rest
  | _, c :: rest => c :: subAux false rest

/-- The regex replacement of format_display_string followed by strip, on a
string that is already known to be non-null. -/
def formatCore (s : String) : String :=
  String.mk (pyStrip (subAux false s.data))

/-- format_display_string (src/xl_to_sqlite.py lines 153-158): a Python None
becomes the empty string, any other value is formatted via the regex
substitution and stripped. -/
def format_display_string : Option String → String
  | none => ""
  | some t => formatCore t

/-!
## clean_int (src/compress_sqlite.py lines 7-10)

`value.split('.')[0]` is the prefix of the string before the first dot
(the whole string when there is no dot); `re.sub(r'[^0-9]', '', _)` keeps
exactly the ASCII digits; `int(_)` parses the base-10 value, and the empty
string (falsy) yields the sentinel -1.
-/

/-- Base-10 value of a list of ASCII digit characters, high digit first,
exactly as Python int() reads an all-digit string (arbitrary precision). -/
def natFromDigits (l : List Char) : Nat :=
  l.foldl (fun a c => 10 * a + (c.toNat - '0'.toNat)) 0

/-- The ASCII digits remaining after truncating at the first dot and
discarding every non-digit character; the string clean_int parses. -/
def extractedDigits (s : String) : List Char :=
  (s.data.takeWhile (fun c => c != '.')).filter Char.isDigit

/-- clean_int (src/compress_sqlite.py lines 7-10). -/
def clean_int (value : String) : Int :=
  let ds := extractedDigits value
  if ds.isEmpty then -1 else Int.ofNat (natFromDigits ds)

/-!
## Filename parsing (src/xl_to_sqlite.py lines 33-44)

`re.match(r"([^-]+)\s+-\s+(.+)", stem)` anchored at the start of the stem.
Group 1 and the following whitespace cannot contain a hyphen, so the hyphen
of the pattern can only match the first hyphen of the stem.  Writing b for
the part of the stem before that hyphen and a for the part after it, the
backtracking search resolves to:
  * fail when the stem has no hyphen, when b is shorter than two characters,
    or when the last character of b is not whitespace (greedy group 1 keeps
    everything up to that final whitespace character);
  * after the hyphen, greedy whitespace followed by `(.+)` (one or more
    non-newline characters, no end anchor): when a has a non-whitespace
    character, group 2 runs from the first of them up to the next newline;
    when a is entirely whitespace, the whitespace run backtracks to leave
    its last non-newline character for group 2, provided at least one
    whitespace character remains before it.
-/
def matchMakeEcm (s : List Char) : Option (List Char × List Char) :=
  let b := s.takeWhile (fun c => c != '-')
  let a := s.drop (b.length + 1)
  if b.length = s.length then none
  else if b.length < 2 then none
  else if pyIsSpace (b.getLastD 'x') = false then none
  else
    let w := a.takeWhile pyIsSpace
    let t := a.drop w.length
    if w.length = 0 then none
    else if t.length = 0 then
      match a.reverse.dropWhile (fun c => c == '\n') with
      | [] => none
      | [_] => none
      | x :: _ :: _ => some (b.dropLast, [x])
    else some (b.dropLast, t.takeWhile (fun c => c != '\n'))

/-!
## Database model (src/xl_to_sqlite.py lines 62-151, 172-225)

Tables are lists of rows in insertion order; a fresh rowid is the current
row count + 1 (SQLite assigns max rowid + 1 and the import never deletes).
The makes table carries UNIQUE(name), the ecms table UNIQUE(make_id, name);
the collections table has no uniqueness constraint beyond its integer
primary key — this is visible in create_tables (lines 103-112).
-/

structure MakeRow where
  id : Nat
  name : String
deriving DecidableEq

structure EcmRow where
  id : Nat
  make_id : Nat
  name : String
deriving DecidableEq

structure CollRow where
  id : Nat
  make_id : Nat
  ecm_id : Nat
  description : String
deriving DecidableEq

structure DtcRow where
  id : Nat
  make_id : Nat
  ecm_id : Nat
  fault_code : String
  pid : String
  spn : String
  fmi : String
  summary : String
  description : String
deriving DecidableEq

structure DB where
  makes : List MakeRow
  ecms : List EcmRow
  collections : List CollRow
  dtc_info : List DtcRow
deriving DecidableEq

def emptyDB : DB := ⟨[], [], [], []⟩

/-- get_or_create_make (src/xl_to_sqlite.py lines 127-138): exact-match
lookup by name, inserting a fresh row when absent. -/
def get_or_create_make (db : DB) (make_name : String) : Nat × DB :=
  match db.makes.find? (fun r => r.name == make_name) with
  | some r => (r.id, db)
  | none =>
    let newId := db.makes.length + 1
    (newId, { db with makes := db.makes ++ [⟨newId, make_name⟩] })

/-- get_or_create_ecm (src/xl_to_sqlite.py lines 140-151): lookup keyed on
the (make_id, name) pair, inserting a fresh row when absent. -/
def get_or_create_ecm (db : DB) (make_id : Nat) (ecm_name : String) :
    Nat × DB :=
  match db.ecms.find? (fun r => r.make_id == make_id && r.name == ecm_name) with
  | some r => (r.id, db)
  | none =>
    let newId := db.ecms.length + 1
    (newId, { db with ecms := db.ecms ++ [⟨newId, make_id, ecm_name⟩] })

/-- The INSERT OR REPLACE into collections (src/xl_to_sqlite.py lines
191-195).  OR REPLACE only fires on a uniqueness conflict, and the
collections table declares no unique constraint on (make_id, ecm_id) —
only the integer primary key, which is freshly assigned here — so the
statement never replaces anything and simply appends a new row. -/
def insert_or_replace_collection (db : DB) (make_id ecm_id : Nat)
    (description : String) : DB :=
  { db with collections :=
      db.collections ++ [⟨db.collections.length + 1, make_id, ecm_id, description⟩] }

/-- One spreadsheet data row: the six cells used by process_file, each
either missing (pandas NaN) or carrying its str() form. -/
structure SheetRow where
  c0 : Option String
  c1 : Option String
  c2 : Option String
  c3 : Option String
  c4 : Option String
  c5 : Option String
deriving DecidableEq

/-- A parsed sheet: cell A1 of the header row, and the data rows below it
(df.iloc[1:]). -/
structure Sheet where
  a1 : Option String
  rows : List SheetRow
deriving DecidableEq

/-- str() of a cell as the source passes it to format_display_string: a
missing cell is the float NaN there, never None, and str(nan) is "nan". -/
def cellStr : Option String → String
  | none => "nan"
  | some s => s

/-- format_display_string applied to a raw data cell (src/xl_to_sqlite.py
lines 201-205). -/
def format_cell (c : Option String) : String :=
  format_display_string (some (cellStr c))

/-- process_file (src/xl_to_sqlite.py lines 172-225): resolve the make and
ecm ids, store the collection description of cell A1 raw (only guarded by
pd.notna), then append one dtc_info row per data row with the display
columns formatted and the long description merely stripped. -/
def process_file (db : DB) (make ecm : String) (sheet : Sheet) : DB :=
  let m := get_or_create_make db make
  let make_id := m.1
  let db1 := m.2
  let e := get_or_create_ecm db1 make_id ecm
  let ecm_id := e.1
  let db2 := e.2
  let collection_description := match sheet.a1 with
    | some s => s
    | none => ""
  let db3 := insert_or_replace_collection db2 make_id ecm_id collection_description
  let base := db3.dtc_info.length
  let recs := sheet.rows.enum.map (fun p =>
    DtcRow.mk (base + p.1 + 1) make_id ecm_id
      (format_cell p.2.c0) (format_cell p.2.c1) (format_cell p.2.c2)
      (format_cell p.2.c3) (format_cell p.2.c4)
      (match p.2.c5 with
       | some s => pyStripStr s
       | none => ""))
  { db3 with dtc_info := db3.dtc_info ++ recs }

/-- The body of the per-file loop of process_excel_files (src/xl_to_sqlite.py
lines 33-52): parse the stem; on failure log and skip, otherwise strip the
two groups and import the file. -/
def process_one_file (db : DB) (f : String × Sheet) : DB :=
  match matchMakeEcm f.1.data with
  | none => db
  | some (g1, g2) =>
    process_file db (String.mk (pyStrip g1)) (String.mk (pyStrip g2)) f.2

/-- process_excel_files (src/xl_to_sqlite.py lines 11-60): fold the per-file
step over the enumerated files (index creation touches no table contents and
is not modelled). -/
def process_excel_files (db : DB) (files : List (String × Sheet)) : DB :=
  files.foldl process_one_file db

/-!
## Post-process row transformation (src/compress_sqlite.py lines 12-46)

The CREATE TABLE ... AS SELECT copies every dtc_info row into a table with
the description column dropped (and the spn/fmi/pid columns reordered by
name in the column list); the UPDATE loop then overwrites spn, fmi and pid
with their clean_int values, keyed by the preserved primary-key id.
Gzip compression of the database file is byte-level and is not modelled.
-/

/-- A dtc_info row after the column-pruning rebuild: the description field
no longer exists; every other field keeps its value. -/
structure PrunedRow where
  id : Nat
  make_id : Nat
  ecm_id : Nat
  fault_code : String
  spn : String
  fmi : String
  pid : String
  summary : String
deriving DecidableEq

/-- A dtc_info row after the integer-coercion loop: spn, fmi and pid now
hold the clean_int integers. -/
structure FinalRow where
  id : Nat
  make_id : Nat
  ecm_id : Nat
  fault_code : String
  spn : Int
  fmi : Int
  pid : Int
  summary : String
deriving DecidableEq

/-- The SELECT list of the rebuild (src/compress_sqlite.py lines 21-25):
keep id, make_id, ecm_id, fault_code, spn, fmi, pid, summary. -/
def pruneRow (r : DtcRow) : PrunedRow :=
  ⟨r.id, r.make_id, r.ecm_id, r.fault_code, r.spn, r.fmi, r.pid, r.summary⟩

/-- One iteration of the UPDATE loop (src/compress_sqlite.py lines 30-38):
replace spn, fmi and pid by their clean_int values. -/
def coerceRow (r : PrunedRow) : FinalRow :=
  ⟨r.id, r.make_id, r.ecm_id, r.fault_code,
   clean_int r.spn, clean_int r.fmi, clean_int r.pid, r.summary⟩

/-- The column-pruning rebuild applied to the whole table. -/
def prune_dtc_info (rows : List DtcRow) : List PrunedRow :=
  rows.map pruneRow

/-- The data transformation of compress_sqlite_db (src/compress_sqlite.py
lines 12-41): prune the description column, then coerce spn/fmi/pid. -/
def compress_sqlite_db (rows : List DtcRow) : List FinalRow :=
  (prune_dtc_info rows).map coerceRow

/-!
## Transaction model of the rebuild (src/compress_sqlite.py lines 17-41)

The script issues its statements through the Python sqlite3 module with the
default isolation level, whose documented behaviour is: an implicit BEGIN is
issued only before a data-modifying statement (INSERT/UPDATE/DELETE/REPLACE)
when no transaction is open; schema statements (CREATE/DROP/ALTER) never
open a transaction, so outside a transaction they apply directly in
autocommit mode.  conn.commit() commits whatever transaction is open.
The schema is modelled as the column lists of the two tables involved,
present or absent.
-/

inductive PpStmt where
  | createTempAs
  | dropDtcInfo
  | renameTemp
  | updateRows
  | commitTx
deriving DecidableEq

/-- Column list of dtc_info as created by the import job. -/
def dtcInfoCols : List String :=
  ["id", "make_id", "ecm_id", "fault_code", "pid", "spn", "fmi", "summary",
   "description"]

/-- Column list selected by the rebuild. -/
def prunedCols : List String :=
  ["id", "make_id", "ecm_id", "fault_code", "spn", "fmi", "pid", "summary"]

structure SchemaState where
  dtc_info : Option (List String)
  dtc_info_temp : Option (List String)
deriving DecidableEq

/-- Effect of one statement on the schema.  CREATE TABLE IF NOT EXISTS ...
AS SELECT is a no-op when the temp table already exists; the UPDATE and the
commit do not touch the schema. -/
def applySchema : PpStmt → SchemaState → SchemaState
  | .createTempAs, st =>
    if st.dtc_info_temp.isSome then st
    else { st with dtc_info_temp := some prunedCols }
  | .dropDtcInfo, st => { st with dtc_info := none }
  | .renameTemp, st => ⟨st.dtc_info_temp, none⟩
  | .updateRows, st => st
  | .commitTx, st => st

/-- Only the UPDATE statements are data-modifying for the implicit-BEGIN
rule of the sqlite3 module. -/
def isDml : PpStmt → Bool
  | .updateRows => true
  | _ => false

/-- A connection: the committed schema, and the pending schema of the open
transaction when one exists. -/
structure SqliteConn where
  committed : SchemaState
  pending : Option SchemaState
deriving DecidableEq

/-- Execute one statement under the sqlite3 module transaction rules. -/
def execStmt (conn : SqliteConn) : PpStmt → SqliteConn
  | .commitTx => ⟨conn.pending.getD conn.committed, none⟩
  | s =>
    match conn.pending with
    | some p => { conn with pending := some (applySchema s p) }
    | none =>
      if isDml s then ⟨conn.committed, some (applySchema s conn.committed)⟩
      else ⟨applySchema s conn.committed, none⟩

def execStmts (conn : SqliteConn) (l : List PpStmt) : SqliteConn :=
  l.foldl execStmt conn

/-- The statement sequence of compress_sqlite_db, with the per-row UPDATEs
represented by one schema-neutral update step. -/
def compressTrace : List PpStmt :=
  [.createTempAs, .dropDtcInfo, .renameTemp, .updateRows, .commitTx]

/-!
## Helper lemmas
-/

/-- The regex substitution never emits a newline: every newline of the input
is consumed by a match, and matches are replaced by a single space. -/
theorem subAux_no_newline (b : Bool) (l : List Char) : '\n' ∉ subAux b l := by
  induction b, l using subAux.induct <;> simp_all [subAux, eq_comm]

/-- Stripping only removes characters. -/
theorem mem_pyStrip {x : Char} {l : List Char} (h : x ∈ pyStrip l) : x ∈ l := by
  unfold pyStrip at h
  rw [List.mem_reverse] at h
  have h2 := (List.dropWhile_sublist pyIsSpace).subset h
  rw [List.mem_reverse] at h2
  exact (List.dropWhile_sublist pyIsSpace).subset h2

theorem takeWhile_append_all {p : Char → Bool} {xs : List Char}
    (ys : List Char) (h : ∀ x ∈ xs, p x = true) :
    (xs ++ ys).takeWhile p = xs ++ ys.takeWhile p := by
  induction xs with
  | nil => simp
  | cons a t ih =>
    have ha : p a = true := h a (List.mem_cons_self a t)
    simp only [List.cons_append, List.takeWhile_cons, ha, if_true]
    rw [ih (fun x hx => h x (List.mem_cons_of_mem a hx))]

theorem takeWhile_all {p : Char → Bool} {l : List Char}
    (h : ∀ x ∈ l, p x = true) : l.takeWhile p = l := by
  induction l with
  | nil => rfl
  | cons a t ih =>
    have ha : p a = true := h a (List.mem_cons_self a t)
    simp only [List.takeWhile_cons, ha, if_true]
    rw [ih (fun x hx => h x (List.mem_cons_of_mem a hx))]

theorem find?_append_none {α : Type} {p : α → Bool} {l₁ : List α}
    (l₂ : List α) (h : l₁.find? p = none) :
    (l₁ ++ l₂).find? p = l₂.find? p := by
  rw [List.find?_append, h, Option.none_or]

/-- A list whose keys are distinct holds exactly one element with the key of
a member, counted through any predicate deciding that key. -/
theorem countP_eq_one_key {α κ : Type} [DecidableEq κ] (key : α → κ)
    (p : α → Bool) (k : κ) (hp : ∀ x, p x = true ↔ key x = k) :
    ∀ (l : List α), (l.map key).Nodup → ∀ r ∈ l, key r = k →
      l.countP p = 1 := by
  intro l
  induction l with
  | nil => intro _ r hr; exact absurd hr (List.not_mem_nil r)
  | cons a t ih =>
    intro hnd r hr hk
    have hnd' : (t.map key).Nodup := (List.nodup_cons.mp hnd).2
    have hka : key a ∉ t.map key := (List.nodup_cons.mp hnd).1
    rw [List.countP_cons]
    rcases List.mem_cons.mp hr with rfl | hrt
    · have hpa : p r = true := (hp r).mpr hk
      have hzero : t.countP p = 0 := by
        rw [List.countP_eq_zero]
        intro x hx hpx
        have h1 : key x = k := (hp x).mp hpx
        have h2 : key x ∈ t.map key := List.mem_map_of_mem key hx
        rw [h1, ← hk] at h2
        exact hka h2
      simp [hpa, hzero]
    · have hpa : p a = false := by
        cases hpaq : p a
        · rfl
        · exfalso
          have h1 : key a = k := (hp a).mp hpaq
          have h2 : key r ∈ t.map key := List.mem_map_of_mem key hrt
          rw [hk, ← h1] at h2
          exact hka h2
      simp only [hpa, if_false, Nat.add_zero]
      exact ih hnd' r hrt hk

/-- get_or_create_make never touches the collections table. -/
theorem gocm_collections (db : DB) (n : String) :
    (get_or_create_make db n).2.collections = db.collections := by
  cases h : db.makes.find? (fun r => r.name == n) <;>
    simp [get_or_create_make, h]

/-- get_or_create_ecm never touches the collections table. -/
theorem goce_collections (db : DB) (mid : Nat) (n : String) :
    (get_or_create_ecm db mid n).2.collections = db.collections := by
  cases h : db.ecms.find? (fun r => r.make_id == mid && r.name == n) <;>
    simp [get_or_create_ecm, h]

/-!
## Claims
-/

/-- Claim C2, counterexample: on input "a\n b" the source regex consumes the
newline but not the following single space, so the output "a  b" contains a
run of two spaces, and a second application collapses that run to "a b", so
the function is not idempotent. -/
theorem c2_counterexample :
    format_display_string (some "a\n b") = "a  b" ∧
    (format_display_string (some "a\n b")).data = ['a', ' ', ' ', 'b'] ∧
    format_display_string (some (format_display_string (some "a\n b"))) ≠
      format_display_string (some "a\n b") := by
  refine ⟨by decide, by decide, by decide⟩

/-- Claim C2, amended: formatDisplayString(None) is the empty string, and
for every input the output contains no carriage-return+newline pair and no
newline at all; however a run of two or more spaces can survive (when a
newline is immediately followed by a space) and the function is not
idempotent. -/
theorem c2_amended (t : Option String) (pre post : List Char) :
    (format_display_string t).data ≠ pre ++ '\r' :: '\n' :: post ∧
    '\n' ∉ (format_display_string t).data ∧
    format_display_string none = "" := by
  have hn : '\n' ∉ (format_display_string t).data := by
    cases t with
    | none => simp [format_display_string]
    | some s =>
      intro hmem
      exact subAux_no_newline false s.data (mem_pyStrip hmem)
  refine ⟨fun heq => hn ?_, hn, rfl⟩
  rw [heq]
  simp

/-- Claim C3: clean_int truncates at the first dot, keeps only ASCII digits,
returns -1 when no digit remains and otherwise the base-10 value of the
digit string, with arbitrary precision (the 26-digit example exceeds any
64-bit integer); the final conjuncts pin down the base-10 reading of the
digit list. -/
theorem c3_clean_int_spec :
    clean_int "123.45" = 123 ∧
    clean_int "SPN-1234" = 1234 ∧
    clean_int "abc" = -1 ∧
    clean_int "" = -1 ∧
    clean_int "007" = 7 ∧
    clean_int "99999999999999999999999999" = 99999999999999999999999999 ∧
    (∀ s : String, clean_int s =
      if (extractedDigits s).isEmpty then (-1 : Int)
      else Int.ofNat (natFromDigits (extractedDigits s))) ∧
    natFromDigits [] = 0 ∧
    (∀ (l : List Char) (ch : Char),
      natFromDigits (l ++ [ch]) =
        10 * natFromDigits l + (ch.toNat - '0'.toNat)) := by
  refine ⟨by decide, by decide, by decide, by decide, by decide, by decide,
    fun s => rfl, rfl, fun l ch => ?_⟩
  simp [natFromDigits, List.foldl_append]

/-- Claim C6: the post-process output keeps, for every row, exactly the
eight retained fields (the description field does not exist in the output
row type), with spn, fmi and pid replaced by their clean_int values; and
clean_int yields the sentinel -1 exactly when no digit survives extraction
from the original string. -/
theorem c6_post_process_fields :
    (∀ rows : List DtcRow,
      compress_sqlite_db rows = rows.map (fun r => coerceRow (pruneRow r))) ∧
    (∀ r : DtcRow, coerceRow (pruneRow r) =
      ⟨r.id, r.make_id, r.ecm_id, r.fault_code,
       clean_int r.spn, clean_int r.fmi, clean_int r.pid, r.summary⟩) ∧
    (∀ s : String,
      (clean_int s = -1 ↔ (extractedDigits s).isEmpty = true)) := by
  refine ⟨fun rows => ?_, fun r => rfl, fun s => ?_⟩
  · simp [compress_sqlite_db, prune_dtc_info, List.map_map, Function.comp]
  · cases h : (extractedDigits s).isEmpty <;> simp [clean_int, h]

/-- Claim C8: the column-pruning rebuild keeps the row count and, on every
row, the primary-key id and each of the seven other retained field values
unchanged. -/
theorem c8_prune_frame :
    (∀ rows : List DtcRow,
      (prune_dtc_info rows).length = rows.length ∧
      prune_dtc_info rows = rows.map pruneRow) ∧
    (∀ r : DtcRow,
      (pruneRow r).id = r.id ∧ (pruneRow r).make_id = r.make_id ∧
      (pruneRow r).ecm_id = r.ecm_id ∧
      (pruneRow r).fault_code = r.fault_code ∧
      (pruneRow r).spn = r.spn ∧ (pruneRow r).fmi = r.fmi ∧
      (pruneRow r).pid = r.pid ∧ (pruneRow r).summary = r.summary) := by
  exact ⟨fun rows => ⟨List.length_map rows pruneRow, rfl⟩,
    fun r => ⟨rfl, rfl, rfl, rfl, rfl, rfl, rfl, rfl⟩⟩

/-- Claim C9: clean_int returns the sentinel -1 or a non-negative integer;
a minus sign is discarded with every other non-digit character before
parsing, so no other negative value can arise. -/
theorem c9_clean_int_range (s : String) :
    clean_int s = -1 ∨ 0 ≤ clean_int s := by
  unfold clean_int
  cases h : (extractedDigits s).isEmpty
  · right
    simp [h]
  · left
    simp [h]

/-- Claim C1: importing two files that both name the pair (Acme, ECM1) —
legal, since distinct stems can strip to the same make and ecm — leaves two
rows for that pair in the collections table, both descriptions retained:
the INSERT OR REPLACE never replaces because the schema has no unique
constraint on (make_id, ecm_id), contradicting the documented upsert
semantics. -/
theorem c1_collections_accumulate :
    (process_excel_files emptyDB
        [("Acme - ECM1", ⟨some "first", []⟩),
         ("Acme  -  ECM1", ⟨some "second", []⟩)]).collections =
      [⟨1, 1, 1, "first"⟩, ⟨2, 1, 1, "second"⟩] ∧
    (process_excel_files emptyDB
        [("Acme - ECM1", ⟨some "first", []⟩),
         ("Acme  -  ECM1", ⟨some "second", []⟩)]).collections.countP
      (fun r => r.make_id == 1 && r.ecm_id == 1) = 2 := by
  exact ⟨by decide, by decide⟩

/-- Claim C4, counterexample: after the CREATE TABLE ... AS and the DROP
TABLE have executed, no transaction is open and the committed schema has
lost dtc_info — a partial schema change in a committed state, which a
failure of the subsequent ALTER TABLE (or a crash) would leave behind. -/
theorem c4_counterexample :
    (execStmts ⟨⟨some dtcInfoCols, none⟩, none⟩
        [PpStmt.createTempAs, PpStmt.dropDtcInfo]).pending = none ∧
    (execStmts ⟨⟨some dtcInfoCols, none⟩, none⟩
        [PpStmt.createTempAs, PpStmt.dropDtcInfo]).committed.dtc_info = none ∧
    (execStmts ⟨⟨some dtcInfoCols, none⟩, none⟩
        [PpStmt.createTempAs, PpStmt.dropDtcInfo]).committed ≠
      ⟨some dtcInfoCols, none⟩ := by
  exact ⟨by decide, by decide, by decide⟩

/-- Claim C4, amended: the rebuild does not run inside a transaction — the
sqlite3 driver opens one only for data-modifying statements, so each schema
statement commits on its own: from any starting schema, executing the
CREATE and DROP steps leaves no transaction open and a committed state with
no dtc_info table; the complete run then commits the pruned table. -/
theorem c4_amended (st : SchemaState) :
    (execStmts ⟨st, none⟩ [PpStmt.createTempAs, PpStmt.dropDtcInfo]).pending =
      none ∧
    (execStmts ⟨st, none⟩
        [PpStmt.createTempAs, PpStmt.dropDtcInfo]).committed.dtc_info = none ∧
    (execStmts ⟨⟨some dtcInfoCols, none⟩, none⟩ compressTrace).committed =
      ⟨some prunedCols, none⟩ := by
  obtain ⟨d, tmp⟩ := st
  refine ⟨?_, ?_, by decide⟩ <;> cases tmp <;>
    simp [execStmts, execStmt, applySchema, isDml]

/-- Claim C7: get_or_create_make and get_or_create_ecm are idempotent —
when the dimension tables hold no duplicate keys (which the schema enforces
with its UNIQUE constraints), a repeated call returns the same id, changes
nothing, and the store holds exactly one row for the key. -/
theorem c7_get_or_create_idempotent (db : DB) (n : String) (mid : Nat)
    (en : String)
    (hm : (db.makes.map (fun r => r.name)).Nodup)
    (he : (db.ecms.map (fun r => (r.make_id, r.name))).Nodup) :
    ((get_or_create_make (get_or_create_make db n).2 n).1 =
        (get_or_create_make db n).1 ∧
      (get_or_create_make (get_or_create_make db n).2 n).2 =
        (get_or_create_make db n).2 ∧
      (get_or_create_make db n).2.makes.countP (fun r => r.name == n) = 1) ∧
    ((get_or_create_ecm (get_or_create_ecm db mid en).2 mid en).1 =
        (get_or_create_ecm db mid en).1 ∧
      (get_or_create_ecm (get_or_create_ecm db mid en).2 mid en).2 =
        (get_or_create_ecm db mid en).2 ∧
      (get_or_create_ecm db mid en).2.ecms.countP
        (fun r => r.make_id == mid && r.name == en) = 1) := by
  constructor
  · cases hf : db.makes.find? (fun r => r.name == n) with
    | some r =>
      have hrn : r.name = n := by simpa using List.find?_some hf
      have hrm : r ∈ db.makes := List.mem_of_find?_eq_some hf
      refine ⟨?_, ?_, ?_⟩ <;> simp only [get_or_create_make, hf]
      exact countP_eq_one_key (fun r => r.name) _ n (fun x => by simp)
        db.makes hm r hrm hrn
    | none =>
      have hfind2 : (db.makes ++
          [(⟨db.makes.length + 1, n⟩ : MakeRow)]).find?
            (fun r => r.name == n) = some ⟨db.makes.length + 1, n⟩ := by
        rw [find?_append_none _ hf]
        simp [List.find?]
      have hzero : db.makes.countP (fun r => r.name == n) = 0 :=
        List.countP_eq_zero.mpr (List.find?_eq_none.mp hf)
      refine ⟨?_, ?_, ?_⟩ <;>
        simp [get_or_create_make, hf, hfind2, List.countP_append, hzero]
  · cases hf : db.ecms.find? (fun r => r.make_id == mid && r.name == en) with
    | some r =>
      have hpr := List.find?_some hf
      have hrk : (r.make_id, r.name) = (mid, en) := by
        simp only [Bool.and_eq_true, beq_iff_eq] at hpr
        simp [hpr.1, hpr.2]
      have hrm : r ∈ db.ecms := List.mem_of_find?_eq_some hf
      refine ⟨?_, ?_, ?_⟩ <;> simp only [get_or_create_ecm, hf]
      exact countP_eq_one_key (fun r => (r.make_id, r.name)) _ (mid, en)
        (fun x => by simp [Prod.ext_iff]) db.ecms he r hrm hrk
    | none =>
      have hfind2 : (db.ecms ++
          [(⟨db.ecms.length + 1, mid, en⟩ : EcmRow)]).find?
            (fun r => r.make_id == mid && r.name == en) =
          some ⟨db.ecms.length + 1, mid, en⟩ := by
        rw [find?_append_none _ hf]
        simp [List.find?]
      have hzero : db.ecms.countP
          (fun r => r.make_id == mid && r.name == en) = 0 :=
        List.countP_eq_zero.mpr (List.find?_eq_none.mp hf)
      refine ⟨?_, ?_, ?_⟩ <;>
        simp [get_or_create_ecm, hf, hfind2, List.countP_append, hzero]

/-- Witness for C7 at a concrete store: the empty database, make "Acme",
ecm key (1, "ECM"). -/
theorem c7_witness :
    (get_or_create_make emptyDB "Acme").2.makes.countP
      (fun r => r.name == "Acme") = 1 ∧
    (get_or_create_ecm emptyDB 1 "ECM").2.ecms.countP
      (fun r => r.make_id == 1 && r.name == "ECM") = 1 :=
  ⟨(c7_get_or_create_idempotent emptyDB "Acme" 1 "ECM" (by decide)
      (by decide)).1.2.2,
   (c7_get_or_create_idempotent emptyDB "Acme" 1 "ECM" (by decide)
      (by decide)).2.2.2⟩

/-- Claim C10: the collection row stored by process_file carries the str()
form of cell A1 verbatim — no whitespace collapsing and no trimming — and
the empty string when the cell is missing; the stored description is empty
exactly for a missing cell, as long as the parser never yields a present
cell whose str() form is the empty string. -/
theorem c10_collection_description_raw (db : DB) (make ecm : String)
    (a1 : Option String) (rows : List SheetRow) :
    (process_file db make ecm ⟨a1, rows⟩).collections =
      db.collections ++
        [⟨db.collections.length + 1,
          (get_or_create_make db make).1,
          (get_or_create_ecm (get_or_create_make db make).2
            (get_or_create_make db make).1 ecm).1,
          (match a1 with | some s => s | none => "")⟩] ∧
    (∀ t : Option String, t ≠ some "" →
      ((match t with | some s => s | none => "") = "" ↔ t = none)) := by
  constructor
  · simp [process_file, insert_or_replace_collection, gocm_collections,
      goce_collections]
  · intro t ht
    cases t with
    | none => simp
    | some s =>
      have hs : s ≠ "" := fun h => ht (by rw [h])
      simp [hs]

/-- Witness for C10: a present A1 cell containing internal double spaces is
stored verbatim, and a missing cell is stored as the empty string. -/
theorem c10_witness :
    (process_file emptyDB "Acme" "ECM1" ⟨some "x  y", []⟩).collections =
      [⟨1, 1, 1, "x  y"⟩] ∧
    ((match (none : Option String) with | some s => s | none => "") = "" ↔
      (none : Option String) = none) := by
  constructor
  · have h := (c10_collection_description_raw emptyDB "Acme" "ECM1"
      (some "x  y") []).1
    simpa using h
  · exact (c10_collection_description_raw emptyDB "Acme" "ECM1"
      (some "x  y") []).2 none (by decide)

/-- Claim C5, counterexample: the stem "Mercedes-Benz - Sprinter" contains
the space-hyphen-space separator, yet the import skips the file, because
the pattern group before the hyphen may not contain a hyphen: re.match
fails on any make containing one. -/
theorem c5_counterexample :
    "Mercedes-Benz - Sprinter" = "Mercedes-Benz" ++ " - " ++ "Sprinter" ∧
    matchMakeEcm ("Mercedes-Benz - Sprinter").data = none ∧
    process_one_file emptyDB ("Mercedes-Benz - Sprinter", ⟨some "d", []⟩) =
      emptyDB := by
  exact ⟨by decide, by decide, by decide⟩

/-- Claim C5, amended: when the part before the separator is nonempty and
hyphen-free and the part after it starts with a non-whitespace character
and contains no newline, the stem splits at the space-hyphen-space
separator into those two parts; any stem the pattern rejects — including
every stem whose make part contains a hyphen — is skipped and the job
continues unchanged. -/
theorem c5_amended :
    (∀ (m e : List Char) (c : Char), m ≠ [] → '-' ∉ m → pyIsSpace c = false →
      '\n' ∉ c :: e →
      matchMakeEcm (m ++ ' ' :: '-' :: ' ' :: c :: e) = some (m, c :: e)) ∧
    (∀ (db : DB) (stem : String) (sheet : Sheet),
      matchMakeEcm stem.data = none →
      process_one_file db (stem, sheet) = db) := by
  constructor
  · intro m e c hm hmh hc hn
    have hball : ∀ x ∈ m ++ [' '], (x != '-') = true := by
      intro x hx
      rcases List.mem_append.mp hx with hxm | hxs
      · simp only [bne_iff_ne, ne_eq]
        exact fun h => hmh (h ▸ hxm)
      · simp only [List.mem_singleton] at hxs
        subst hxs
        decide
    have hsplit : m ++ ' ' :: '-' :: ' ' :: c :: e =
        (m ++ [' ']) ++ ('-' :: ' ' :: c :: e) := by simp
    have hb : (m ++ ' ' :: '-' :: ' ' :: c :: e).takeWhile
        (fun ch => ch != '-') = m ++ [' '] := by
      rw [hsplit, takeWhile_append_all _ hball]
      simp [List.takeWhile_cons]
    have ha : (m ++ ' ' :: '-' :: ' ' :: c :: e).drop
        ((m ++ [' ']).length + 1) = ' ' :: c :: e := by
      have h1 : m ++ ' ' :: '-' :: ' ' :: c :: e =
          (m ++ [' ', '-']) ++ (' ' :: c :: e) := by simp
      have h2 : (m ++ [' ']).length + 1 = (m ++ [' ', '-']).length := by simp
      rw [h1, h2, List.drop_left]
    simp only [matchMakeEcm, hb, ha]
    have hl1 : ¬ ((m ++ [' ']).length =
        (m ++ ' ' :: '-' :: ' ' :: c :: e).length) := by
      simp
    have hl2 : ¬ ((m ++ [' ']).length < 2) := by
      simp only [List.length_append, List.length_singleton]
      have := List.length_pos.mpr hm
      omega
    have hl3 : ¬ (pyIsSpace ((m ++ [' ']).getLastD 'x') = false) := by
      rw [List.getLastD_concat]
      decide
    rw [if_neg hl1, if_neg hl2, if_neg hl3]
    have hsp : pyIsSpace ' ' = true := by decide
    have hw : (' ' :: c :: e).takeWhile pyIsSpace = [' '] := by
      simp [List.takeWhile_cons, hc, hsp]
    simp only [hw]
    have ht : (' ' :: c :: e).drop 1 = c :: e := rfl
    simp only [List.length_singleton, ht]
    rw [if_neg (by omega), if_neg (by simp)]
    have htw : (c :: e).takeWhile (fun ch => ch != '\n') = c :: e := by
      apply takeWhile_all
      intro x hx
      simp only [bne_iff_ne, ne_eq]
      exact fun h => hn (h ▸ hx)
    rw [htw, List.dropLast_concat]
  · intro db stem sheet h
    simp [process_one_file, h]

/-- Witness for C5 at concrete stems: "Acme - ECM1" splits into Acme and
ECM1, and a stem without any separator is skipped. -/
theorem c5_amended_witness :
    matchMakeEcm ("Acme".data ++ ' ' :: '-' :: ' ' :: 'E' :: "CM1".data) =
      some ("Acme".data, 'E' :: "CM1".data) ∧
    process_one_file emptyDB ("plainstem", ⟨none, []⟩) = emptyDB :=
  ⟨c5_amended.1 "Acme".data "CM1".data 'E' (by decide) (by decide)
      (by decide) (by decide),
   c5_amended.2 emptyDB "plainstem" ⟨none, []⟩ (by decide)⟩

end SqliteConversion
